import Mathlib

/-!
Verification of the FinQorp recommendation core.

Shallow embedding of `modules/recommendation.py`, `modules/forecast.py`
and the return shape of `modules/fundamentals.py`.  Python floats are
modelled as rationals; a value that may be `None`/`NaN` is an `Option ℚ`
(`none` standing for missing/NaN).  Python exceptions are modelled with
`Except String`; a `try/except` block that substitutes a default value
becomes a `match` on that `Except`.
-/

namespace FinQorp

/-! ## SignalNormalizer (`recommendation.py`, `_normalize`, lines 9-12)

`_normalize(value, low, high)`: `None`/NaN input yields 0, otherwise
`max(-1, min(1, 2 * ((value - low) / (high - low)) - 1))`. -/

def _normalize (value : Option ℚ) (low high : ℚ) : ℚ :=
  match value with
  | none => 0
  | some v => max (-1) (min 1 (2 * ((v - low) / (high - low)) - 1))

/-! ## Fundamental composite (`recommendation.py`, lines 28-38)

The four ratios arrive through `safe_num`, which returns NaN when the
raw metric is absent or unparsable; a NaN ratio is `none` here.
`f_score` accumulates the normalized contribution of each present
ratio; `fundamental_score = f_score / 4 if f_score else 0` (Python
truthiness: a zero sum falls to the `else`). -/

def f_score (pe roe pm de : Option ℚ) : ℚ :=
  (match pe with
   | none => 0
   | some v => _normalize (some (40 - v)) (-20) 40) +
  (match roe with
   | none => 0
   | some v => _normalize (some v) 0 25) +
  (match pm with
   | none => 0
   | some v => _normalize (some v) 0 30) +
  (match de with
   | none => 0
   | some v => _normalize (some (200 - v)) (-100) 200)

def fundamental_score (pe roe pm de : Option ℚ) : ℚ :=
  let f := f_score pe roe pm de
  if f ≠ 0 then f / 4 else 0

/-! ## Forecast signal (`recommendation.py`, lines 41-57)

`np.percentile(xs, 50)` with the default linear interpolation: on a
sorted copy `s` of length `n`, the value at fractional index
`(n-1)/2`, i.e. the middle element when `n` is odd and the average of
the two middle elements when `n` is even.  `np.percentile` raises on
an empty array. -/

def insertSorted (x : ℚ) : List ℚ → List ℚ
  | [] => [x]
  | y :: ys => if x ≤ y then x :: y :: ys else y :: insertSorted x ys

def sortQ (l : List ℚ) : List ℚ := l.foldr insertSorted []

def percentile50 (l : List ℚ) : Option ℚ :=
  match sortQ l with
  | [] => none
  | s =>
    let n := s.length
    if n % 2 = 1 then some (s.getD (n / 2) 0)
    else some ((s.getD (n / 2 - 1) 0 + s.getD (n / 2) 0) / 2)

/-- Lines 41-57: `last_actual = hist_df['y'].iloc[-1]`,
`median_forecast_price = np.percentile(simulations[-1, :], 50)`,
`sentiment_drift = last_actual * sentiment_score * 0.1`,
`percent_change = ((median + drift - last_actual) / last_actual) * 100`,
`forecast_score = _normalize(percent_change, -10, 10)`; any exception
in the block is caught and yields `forecast_score = 0`. -/
def forecast_block (prices : List ℚ) (simulations : List (List ℚ))
    (sentiment_score : ℚ) : ℚ :=
  match prices.getLast?, simulations.getLast? with
  | some last_actual, some lastRow =>
    match percentile50 lastRow with
    | some median_forecast_price =>
      let sentiment_drift := last_actual * sentiment_score * 0.1
      let avg_future_adjusted := median_forecast_price + sentiment_drift
      let percent_change := ((avg_future_adjusted - last_actual) / last_actual) * 100
      _normalize (some percent_change) (-10) 10
    | none => 0
  | _, _ => 0

/-! ## Composite scorer (`recommendation.py`, lines 60-78) -/

def composite (forecast_score fundamental_score sentiment_norm : ℚ) : ℚ :=
  0.4 * forecast_score + 0.3 * fundamental_score + 0.3 * sentiment_norm

inductive Label
  | strongBuy
  | buy
  | hold
  | sell
  | strongSell
deriving DecidableEq, Repr

/-- Lines 66-70: the threshold ladder on the composite score. -/
def labelOf (comp : ℚ) : Label :=
  if comp > 0.6 then .strongBuy
  else if comp > 0.3 then .buy
  else if comp > -0.3 then .hold
  else if comp > -0.6 then .sell
  else .strongSell

/-- The recommendation payload actually derived from the composite:
the action label, the composite score, and `conf = abs(comp)`
(line 78).  Text formatting and the plotly gauge carry no further
scoring information and are out of scope. -/
structure RecCard where
  label : Label
  comp : ℚ
  conf : ℚ
deriving DecidableEq, Repr

def score_core (forecast_score fundamental_score sentiment_norm : ℚ) : RecCard :=
  let comp := composite forecast_score fundamental_score sentiment_norm
  { label := labelOf comp, comp := comp, conf := |comp| }

/-! ## `get_fundamentals` return shape (`fundamentals.py`, lines 230 and 234)

Both the success path (`return metrics, figs`) and the error path
(`return {"Error": ...}, {}`) return a Python 2-tuple.  A Python tuple
is modelled as a `List` of dynamic values; the dictionary contents are
carried abstractly (the metric values after `safe_num` as `Option ℚ`,
matplotlib figures as an opaque token) since only the tuple's arity is
consumed before the unpacking in `recommendation.py` line 22. -/

structure Metrics where
  pe : Option ℚ
  roe : Option ℚ
  pm : Option ℚ
  de : Option ℚ
deriving DecidableEq, Repr

inductive PyVal
  | metricsDict (m : Metrics)
  | errorDict (msg : String)
  | figsDict
deriving DecidableEq, Repr

/-- The outcome of the external `yfinance`-backed computation inside
`get_fundamentals`: either the metrics dictionary is produced, or the
enclosing handler at lines 232-234 builds the error dictionary. -/
inductive FundOutcome
  | success (m : Metrics)
  | failure (msg : String)
deriving DecidableEq, Repr

def get_fundamentals_tuple : FundOutcome → List PyVal
  | .success m => [.metricsDict m, .figsDict]
  | .failure msg => [.errorDict msg, .figsDict]

/-- Python tuple unpacking `a, b, c = t`: raises `ValueError` unless the
tuple has exactly three elements. -/
def unpack3 {α : Type} : List α → Except String (α × α × α)
  | [a, b, c] => .ok (a, b, c)
  | _ => .error "ValueError: values to unpack do not number 3"

/-- `safe_num(metrics.get(key))` for the four keys: on the metrics
dictionary it yields the parsed `Option ℚ` values; on the error
dictionary every `get` returns `None`, `float(str(None))` raises, and
`safe_num` returns NaN — i.e. every ratio is missing. -/
def extract_metrics : PyVal → Metrics
  | .metricsDict m => m
  | _ => ⟨none, none, none, none⟩

/-! ## `get_recommendation` (`recommendation.py`, lines 15-124) -/

structure RecInput where
  company_name : String
  prices : List ℚ
  simulations : List (List ℚ)
  sentiment_score : ℚ
  fundOutcome : FundOutcome

inductive RecOutput
  | ok (card : RecCard)
  | err (msg : String)
deriving DecidableEq, Repr

def RecOutput.isErrBranch : RecOutput → Bool
  | .ok _ => false
  | .err _ => true

/-- Line 22 unpacks three names from the 2-tuple returned by
`get_fundamentals`; the resulting `ValueError` is caught by the
handler at lines 123-124, which returns the error string (with `None`
for the gauge).  The remainder of the body (lines 24-121) is embedded
in the `ok` branch. -/
def get_recommendation (inp : RecInput) : RecOutput :=
  match unpack3 (get_fundamentals_tuple inp.fundOutcome) with
  | .error e => .err ("Error generating recommendation: " ++ e)
  | .ok (metricsVal, _, _) =>
    let m := extract_metrics metricsVal
    let fundamental := fundamental_score m.pe m.roe m.pm m.de
    let forecast := forecast_block inp.prices inp.simulations inp.sentiment_score
    let sentiment_norm := _normalize (some inp.sentiment_score) (-1) 1
    .ok (score_core forecast fundamental sentiment_norm)

/-! ## Ensemble forecast bank (`forecast.py`)

The keras/xgboost/sklearn/torch fit-and-predict computations are
external numerical code; each is modelled as an oracle of type
`List ℚ → Except String (List ℚ)` (an `error` is the model raising).
The availability flags model `Sequential is None` /
`XGBRegressor is None` after the guarded imports at lines 13-22. -/

structure ModelOracles where
  sequentialAvailable : Bool
  xgboostAvailable : Bool
  kerasCompute : List ℚ → Except String (List ℚ)
  xgbCompute : List ℚ → Except String (List ℚ)
  svrCompute : List ℚ → Except String (List ℚ)
  torchCompute : List ℚ → Except String (List ℚ)

/-- `_safe_run(func, label, y)` (lines 68-73): `func(y)` on success;
on any exception, `np.repeat(y[-1], 30)` — which itself raises
(`IndexError`) when `y` is empty, since `y[-1]` sits inside the
handler. -/
def _safe_run (func : List ℚ → Except String (List ℚ)) (y : List ℚ) :
    Except String (List ℚ) :=
  match func y with
  | .ok r => .ok r
  | .error _ =>
    match y.getLast? with
    | some p => .ok (List.replicate 30 p)
    | none => .error "IndexError: index -1 is out of bounds"

/-- `_lstm` (lines 76-102): when `Sequential is None` it returns
`np.repeat(y[-1], steps)` directly; otherwise the keras computation
runs. -/
def _lstm (o : ModelOracles) (y : List ℚ) (steps : ℕ) :
    Except String (List ℚ) :=
  if o.sequentialAvailable then o.kerasCompute y
  else
    match y.getLast? with
    | some p => .ok (List.replicate steps p)
    | none => .error "IndexError: index -1 is out of bounds"

/-- `_xgb` (lines 105-134): same guard for `XGBRegressor is None`. -/
def _xgb (o : ModelOracles) (y : List ℚ) (steps : ℕ) :
    Except String (List ℚ) :=
  if o.xgboostAvailable then o.xgbCompute y
  else
    match y.getLast? with
    | some p => .ok (List.replicate steps p)
    | none => .error "IndexError: index -1 is out of bounds"

/-- `_svr` (lines 137-153): no guard; the sklearn computation runs. -/
def _svr (o : ModelOracles) (y : List ℚ) : Except String (List ℚ) :=
  o.svrCompute y

/-- `_transformer` (lines 156-182): its own `try/except` returns
`np.repeat(y[-1], steps)` on failure. -/
def _transformer (o : ModelOracles) (y : List ℚ) (steps : ℕ) :
    Except String (List ℚ) :=
  match o.torchCompute y with
  | .ok r => .ok r
  | .error _ =>
    match y.getLast? with
    | some p => .ok (List.replicate steps p)
    | none => .error "IndexError: index -1 is out of bounds"

/-- The `preds` dictionary built by `generate_all_forecasts`
(lines 193-198), one entry per model. -/
structure ForecastPreds where
  lstm : Except String (List ℚ)
  xgboost : Except String (List ℚ)
  svr : Except String (List ℚ)
  transformer : Except String (List ℚ)

/-- `generate_all_forecasts` (lines 188-199): each model is invoked
through `_safe_run` with the default `steps = 30` horizon; the return
carries only the per-model paths (plus the dataframe and future dates,
which add no model status information). -/
def generate_all_forecasts (o : ModelOracles) (y : List ℚ) : ForecastPreds :=
  { lstm := _safe_run (fun s => _lstm o s 30) y
    xgboost := _safe_run (fun s => _xgb o s 30) y
    svr := _safe_run (fun s => _svr o s) y
    transformer := _safe_run (fun s => _transformer o s 30) y }

/-! ## Spec-side formulations (for refinement claims) -/

/-- Spec-side formulation of §4.3's sentiment overlay: the
linearly-ramping drift `adj_t = P0 * s * k * (t / H)`. -/
def ramp_overlay (P0 s k : ℚ) (t H : ℕ) : ℚ :=
  P0 * s * k * ((t : ℚ) / (H : ℚ))

/-- Spec-side formulation of §4.6's `forecastSignal`: the percent
change between the last actual price `P0` and the sentiment-adjusted
median forecast price at the horizon end (the ramp overlay evaluated
at `t = H` with `k = 0.1`, `H = 30`), normalized over domain
`(-10, 10)`. -/
def spec_forecastSignal (P0 median s : ℚ) : ℚ :=
  let adjusted := median + ramp_overlay P0 s 0.1 30 30
  _normalize (some ((adjusted - P0) / P0 * 100)) (-10) 10

/-! ## Concrete scenarios used in witnesses and counterexamples -/

/-- Every oracle raises and both optional dependencies are absent. -/
def oracleAllFail : ModelOracles :=
  { sequentialAvailable := false
    xgboostAvailable := false
    kerasCompute := fun _ => .error "unavailable"
    xgbCompute := fun _ => .error "unavailable"
    svrCompute := fun _ => .error "svr raised"
    torchCompute := fun _ => .error "torch raised" }

/-- Same as `oracleAllFail` except the SVR computation genuinely
succeeds and genuinely predicts the flat path. -/
def oracleSvrFlat : ModelOracles :=
  { oracleAllFail with
    svrCompute := fun y =>
      match y.getLast? with
      | some p => .ok (List.replicate 30 p)
      | none => .error "empty" }

/-- A well-formed input whose constituent signals are all
fallback/neutral: one observed price, a degenerate simulation matrix,
zero sentiment, and a metrics dictionary in which every ratio is
missing. -/
def neutral_input : RecInput :=
  { company_name := "ACME"
    prices := [100]
    simulations := [[100]]
    sentiment_score := 0
    fundOutcome := .success ⟨none, none, none, none⟩ }

/-! ## Theorems -/

/-- C1: the composite score equals
`0.4*forecastSignal + 0.3*fundamentalSignal + 0.3*sentimentSignal`,
lies in `[-1, 1]` when each input signal does, takes the values
`1`, `-1`, `0` at `(1,1,1)`, `(-1,-1,-1)`, `(0,0,0)` respectively,
and the reported confidence equals the absolute value of the
composite score. -/
theorem composite_weighted_sum_bounds_conf (f fu s : ℚ)
    (hf1 : -1 ≤ f) (hf2 : f ≤ 1) (hu1 : -1 ≤ fu) (hu2 : fu ≤ 1)
    (hs1 : -1 ≤ s) (hs2 : s ≤ 1) :
    composite f fu s = 0.4 * f + 0.3 * fu + 0.3 * s
    ∧ -1 ≤ composite f fu s ∧ composite f fu s ≤ 1
    ∧ composite 1 1 1 = 1 ∧ composite (-1) (-1) (-1) = -1
    ∧ composite 0 0 0 = 0
    ∧ ∀ a b c : ℚ, (score_core a b c).conf = |(score_core a b c).comp| := by
  refine ⟨rfl, ?_, ?_, by norm_num [composite], by norm_num [composite],
    by norm_num [composite], fun a b c => rfl⟩
  · unfold composite
    norm_num
    linarith
  · unfold composite
    norm_num
    linarith

/-- Witness for C1 at the concrete signals `(1, 1, 1)`. -/
theorem composite_weighted_sum_bounds_conf_witness :
    composite 1 1 1 = 0.4 * 1 + 0.3 * 1 + 0.3 * 1
    ∧ -1 ≤ composite 1 1 1 ∧ composite 1 1 1 ≤ 1
    ∧ (score_core 1 1 1).conf = |(score_core 1 1 1).comp| := by
  have h := composite_weighted_sum_bounds_conf 1 1 1 (by norm_num) (by norm_num)
    (by norm_num) (by norm_num) (by norm_num) (by norm_num)
  exact ⟨h.1, h.2.1, h.2.2.1, h.2.2.2.2.2.2 1 1 1⟩

/-- C2: the recommendation label is assigned by the threshold table:
Strong Buy iff `c > 0.6`, Buy iff `0.3 < c ≤ 0.6`, Hold iff
`-0.3 < c ≤ 0.3`, Sell iff `-0.6 < c ≤ -0.3`, Strong Sell iff
`c ≤ -0.6`. -/
theorem labelOf_threshold_table (c : ℚ) :
    (labelOf c = .strongBuy ↔ 0.6 < c)
    ∧ (labelOf c = .buy ↔ 0.3 < c ∧ c ≤ 0.6)
    ∧ (labelOf c = .hold ↔ -0.3 < c ∧ c ≤ 0.3)
    ∧ (labelOf c = .sell ↔ -0.6 < c ∧ c ≤ -0.3)
    ∧ (labelOf c = .strongSell ↔ c ≤ -0.6) := by
  unfold labelOf
  split_ifs with h1 h2 h3 h4
  · refine ⟨iff_of_true rfl h1, ?_, ?_, ?_, ?_⟩ <;>
      refine iff_of_false (by simp) ?_ <;>
        first
          | (rintro ⟨ha, hb⟩; linarith)
          | (intro ha; linarith)
  · refine ⟨?_, iff_of_true rfl ⟨h2, by linarith⟩, ?_, ?_, ?_⟩ <;>
      refine iff_of_false (by simp) ?_ <;>
        first
          | (rintro ⟨ha, hb⟩; linarith)
          | (intro ha; linarith)
  · refine ⟨?_, ?_, iff_of_true rfl ⟨h3, by linarith⟩, ?_, ?_⟩ <;>
      refine iff_of_false (by simp) ?_ <;>
        first
          | (rintro ⟨ha, hb⟩; linarith)
          | (intro ha; linarith)
  · refine ⟨?_, ?_, ?_, iff_of_true rfl ⟨h4, by linarith⟩, ?_⟩ <;>
      refine iff_of_false (by simp) ?_ <;>
        first
          | (rintro ⟨ha, hb⟩; linarith)
          | (intro ha; linarith)
  · refine ⟨?_, ?_, ?_, ?_, iff_of_true rfl (by linarith)⟩ <;>
      refine iff_of_false (by simp) ?_ <;>
        first
          | (rintro ⟨ha, hb⟩; linarith)
          | (intro ha; linarith)

/-- C3 counterexample: at a composite score of exactly `0.6` the code
assigns the label Buy, not Hold as claimed. -/
theorem labelOf_at_boundary_counterexample :
    labelOf 0.6 = Label.buy ∧ labelOf 0.6 ≠ Label.hold := by
  have e : labelOf 0.6 = Label.buy := by norm_num [labelOf]
  exact ⟨e, by rw [e]; decide⟩

/-- C3 amended: a composite score of exactly `0.6` yields Buy — not
Strong Buy, since the Strong Buy rule is strictly greater than `0.6` —
while `0.6000001` yields Strong Buy. -/
theorem labelOf_boundary_amended :
    labelOf 0.6 = Label.buy ∧ labelOf 0.6 ≠ Label.strongBuy
    ∧ labelOf 0.6000001 = Label.strongBuy := by
  have e : labelOf 0.6 = Label.buy := by norm_num [labelOf]
  exact ⟨e, by rw [e]; decide, by norm_num [labelOf]⟩

/-- C4: the signal normalizer satisfies
`normalize(raw, low, high) = clamp(2*(raw-low)/(high-low) - 1, -1, 1)`,
maps missing/NaN input to 0, is monotonic non-decreasing in the raw
value for `low < high`, hits `-1` at `raw = low` and `1` at
`raw = high`, and its output always lies in `[-1, 1]`. -/
theorem normalize_clamp_properties (low high : ℚ) (hlh : low < high) :
    _normalize none low high = 0
    ∧ (∀ v : ℚ, _normalize (some v) low high
        = max (-1) (min 1 (2 * ((v - low) / (high - low)) - 1)))
    ∧ (∀ a b : ℚ, a ≤ b →
        _normalize (some a) low high ≤ _normalize (some b) low high)
    ∧ _normalize (some low) low high = -1
    ∧ _normalize (some high) low high = 1
    ∧ (∀ v : Option ℚ, -1 ≤ _normalize v low high ∧ _normalize v low high ≤ 1) := by
  have hpos : (0 : ℚ) < high - low := by linarith
  refine ⟨rfl, fun v => rfl, ?_, ?_, ?_, ?_⟩
  · intro a b hab
    simp only [_normalize]
    have hdiv : (a - low) / (high - low) ≤ (b - low) / (high - low) :=
      (div_le_div_iff_of_pos_right hpos).mpr (by linarith)
    exact max_le_max le_rfl (min_le_min le_rfl (by linarith))
  · simp only [_normalize]
    rw [sub_self, zero_div]
    norm_num
  · simp only [_normalize]
    rw [div_self (by linarith : high - low ≠ 0)]
    norm_num
  · intro v
    match v with
    | none => exact ⟨by norm_num [_normalize], by norm_num [_normalize]⟩
    | some v =>
      simp only [_normalize]
      constructor
      · exact le_max_left _ _
      · exact max_le (by norm_num) ((min_le_left _ _))

/-- Witness for C4 over the domain `(0, 1)`. -/
theorem normalize_clamp_properties_witness :
    _normalize (some (0 : ℚ)) 0 1 = -1 ∧ _normalize (some (1 : ℚ)) 0 1 = 1
    ∧ _normalize none 0 1 = 0 := by
  have h := normalize_clamp_properties 0 1 (by norm_num)
  exact ⟨h.2.2.2.1, h.2.2.2.2.1, h.1⟩

/-- C5 counterexample: with only the return-on-equity and
profit-margin ratios present (at raw values 25 and 30), the code's
fundamental composite is `1/2` while the arithmetic mean of the two
normalized values is `1`: the divisor is 4, not the count of present
ratios. -/
theorem fundamental_mean_counterexample :
    fundamental_score none (some 25) (some 30) none = 1/2
    ∧ (_normalize (some 25) 0 25 + _normalize (some 30) 0 30) / 2 = 1
    ∧ fundamental_score none (some 25) (some 30) none
        ≠ (_normalize (some 25) 0 25 + _normalize (some 30) 0 30) / 2 := by
  refine ⟨?_, ?_, ?_⟩ <;> norm_num [fundamental_score, f_score, _normalize]

/-- C5 amended: the fundamental composite equals the sum of the
normalized values of exactly the present ratios divided by four —
missing ratios are excluded from the numerator, but the divisor is
always 4, not the count of present ratios; in particular with only
return-on-equity and profit-margin present the composite is the sum of
their two normalized values divided by 4, independent of the two
missing ratios. -/
theorem fundamental_sum_div_four (pe roe pm de : Option ℚ) :
    fundamental_score pe roe pm de = f_score pe roe pm de / 4
    ∧ (∀ r p : ℚ, fundamental_score none (some r) (some p) none
        = (_normalize (some r) 0 25 + _normalize (some p) 0 30) / 4) := by
  constructor
  · by_cases h : f_score pe roe pm de = 0
    · simp [fundamental_score, h]
    · simp [fundamental_score, h]
  · intro r p
    by_cases h : f_score none (some r) (some p) none = 0
    · have h0 : _normalize (some r) 0 25 + _normalize (some p) 0 30 = 0 := by
        simpa [f_score] using h
      simp [fundamental_score, f_score, h0]
    · have e : fundamental_score none (some r) (some p) none
          = f_score none (some r) (some p) none / 4 := by
        simp [fundamental_score, h]
      rw [e]
      simp [f_score]

/-- Helper: `_safe_run` substitutes the flat 30-day fallback when the
wrapped model raises. -/
theorem safe_run_of_error (func : List ℚ → Except String (List ℚ))
    (y : List ℚ) (p : ℚ) (hy : y.getLast? = some p) (e : String)
    (hf : func y = .error e) :
    _safe_run func y = .ok (List.replicate 30 p) := by
  simp [_safe_run, hf, hy]

/-- Helper: `_safe_run` never propagates an exception when the series
is non-empty. -/
theorem safe_run_never_error (func : List ℚ → Except String (List ℚ))
    (y : List ℚ) (p : ℚ) (hy : y.getLast? = some p) (e : String) :
    _safe_run func y ≠ .error e := by
  unfold _safe_run
  cases hf : func y with
  | ok r => simp
  | error m => simp [hy]

/-- C6: for every ensemble model, if its computation raises or its
optional dependency is unavailable, the model's entry in the returned
predictions is the last observed price repeated exactly 30 (the
horizon) times; the failure is absorbed locally — no entry is ever an
exception — and each model's entry depends only on that model's own
computation, so one model's failure never affects the others. -/
theorem ensemble_fallback_isolated (o : ModelOracles) (y : List ℚ) (p : ℚ)
    (hy : y.getLast? = some p) :
    ((o.sequentialAvailable = false ∨ (∃ e, o.kerasCompute y = .error e)) →
      (generate_all_forecasts o y).lstm = .ok (List.replicate 30 p))
    ∧ ((o.xgboostAvailable = false ∨ (∃ e, o.xgbCompute y = .error e)) →
      (generate_all_forecasts o y).xgboost = .ok (List.replicate 30 p))
    ∧ ((∃ e, o.svrCompute y = .error e) →
      (generate_all_forecasts o y).svr = .ok (List.replicate 30 p))
    ∧ ((∃ e, o.torchCompute y = .error e) →
      (generate_all_forecasts o y).transformer = .ok (List.replicate 30 p))
    ∧ (∀ e, (generate_all_forecasts o y).lstm ≠ .error e
        ∧ (generate_all_forecasts o y).xgboost ≠ .error e
        ∧ (generate_all_forecasts o y).svr ≠ .error e
        ∧ (generate_all_forecasts o y).transformer ≠ .error e)
    ∧ (∀ o' : ModelOracles,
        o'.sequentialAvailable = o.sequentialAvailable →
        o'.kerasCompute = o.kerasCompute →
          (generate_all_forecasts o' y).lstm = (generate_all_forecasts o y).lstm)
    ∧ (∀ o' : ModelOracles,
        o'.xgboostAvailable = o.xgboostAvailable →
        o'.xgbCompute = o.xgbCompute →
          (generate_all_forecasts o' y).xgboost = (generate_all_forecasts o y).xgboost)
    ∧ (∀ o' : ModelOracles, o'.svrCompute = o.svrCompute →
          (generate_all_forecasts o' y).svr = (generate_all_forecasts o y).svr)
    ∧ (∀ o' : ModelOracles, o'.torchCompute = o.torchCompute →
          (generate_all_forecasts o' y).transformer
            = (generate_all_forecasts o y).transformer) := by
  refine ⟨?_, ?_, ?_, ?_, ?_, ?_, ?_, ?_, ?_⟩
  · rintro (hseq | ⟨e, he⟩)
    · have hm : _lstm o y 30 = .ok (List.replicate 30 p) := by
        simp [_lstm, hseq, hy]
      simp [generate_all_forecasts, _safe_run, hm]
    · cases hseq : o.sequentialAvailable
      · have hm : _lstm o y 30 = .ok (List.replicate 30 p) := by
          simp [_lstm, hseq, hy]
        simp [generate_all_forecasts, _safe_run, hm]
      · have hm : _lstm o y 30 = .error e := by
          simp [_lstm, hseq, he]
        simp [generate_all_forecasts, _safe_run, hm, hy]
  · rintro (hxgb | ⟨e, he⟩)
    · have hm : _xgb o y 30 = .ok (List.replicate 30 p) := by
        simp [_xgb, hxgb, hy]
      simp [generate_all_forecasts, _safe_run, hm]
    · cases hxgb : o.xgboostAvailable
      · have hm : _xgb o y 30 = .ok (List.replicate 30 p) := by
          simp [_xgb, hxgb, hy]
        simp [generate_all_forecasts, _safe_run, hm]
      · have hm : _xgb o y 30 = .error e := by
          simp [_xgb, hxgb, he]
        simp [generate_all_forecasts, _safe_run, hm, hy]
  · rintro ⟨e, he⟩
    have hm : _svr o y = .error e := by simp [_svr, he]
    simp [generate_all_forecasts, _safe_run, hm, hy]
  · rintro ⟨e, he⟩
    have hm : _transformer o y 30 = .ok (List.replicate 30 p) := by
      simp [_transformer, he, hy]
    simp [generate_all_forecasts, _safe_run, hm]
  · intro e
    simp only [generate_all_forecasts]
    exact ⟨safe_run_never_error _ y p hy e, safe_run_never_error _ y p hy e,
      safe_run_never_error _ y p hy e, safe_run_never_error _ y p hy e⟩
  · intro o' h1 h2
    have hm : (fun s => _lstm o' s 30) = fun s => _lstm o s 30 := by
      funext s
      simp [_lstm, h1, h2]
    simp only [generate_all_forecasts, hm]
  · intro o' h1 h2
    have hm : (fun s => _xgb o' s 30) = fun s => _xgb o s 30 := by
      funext s
      simp [_xgb, h1, h2]
    simp only [generate_all_forecasts, hm]
  · intro o' h1
    have hm : (fun s => _svr o' s) = fun s => _svr o s := by
      funext s
      simp [_svr, h1]
    simp only [generate_all_forecasts, hm]
  · intro o' h1
    have hm : (fun s => _transformer o' s 30) = fun s => _transformer o s 30 := by
      funext s
      simp [_transformer, h1]
    simp only [generate_all_forecasts, hm]

/-- Witness for C6: with every oracle failing on the one-point series
`[100]`, the SVR entry is the flat fallback. -/
theorem ensemble_fallback_isolated_witness :
    (generate_all_forecasts oracleAllFail [100]).svr
      = .ok (List.replicate 30 (100 : ℚ)) := by
  have h := ensemble_fallback_isolated oracleAllFail [100] 100 rfl
  exact h.2.2.1 ⟨"svr raised", rfl⟩

/-- C7 counterexample: on the series `[100]`, an ensemble run in which
the SVR computation raises and a run in which it genuinely succeeds
with the flat path produce identical outputs — `generate_all_forecasts`
returns no per-model status flag, so the fallback is not
distinguishable from a genuinely flat prediction. -/
theorem no_status_flag_counterexample :
    generate_all_forecasts oracleAllFail [100]
      = generate_all_forecasts oracleSvrFlat [100]
    ∧ oracleAllFail.svrCompute [100] = .error "svr raised"
    ∧ oracleSvrFlat.svrCompute [100] = .ok (List.replicate 30 (100 : ℚ)) := by
  refine ⟨?_, rfl, rfl⟩
  rfl

/-- C7 amended: the ensemble forecast returns each model's
horizon-length path but no per-model success/fallback status flag: a
model run that raises and a model run that genuinely predicts the flat
path yield the same entry in the returned predictions, so a fallback
is not distinguishable from a genuinely flat prediction. -/
theorem ensemble_no_status_flag (o o' : ModelOracles) (y : List ℚ) (p : ℚ)
    (e : String) (hy : y.getLast? = some p)
    (hfail : o.svrCompute y = .error e)
    (hflat : o'.svrCompute y = .ok (List.replicate 30 p)) :
    (generate_all_forecasts o y).svr = (generate_all_forecasts o' y).svr
    ∧ (generate_all_forecasts o y).svr = .ok (List.replicate 30 p) := by
  have h1 : (generate_all_forecasts o y).svr = .ok (List.replicate 30 p) := by
    have hm : _svr o y = .error e := by simp [_svr, hfail]
    simp [generate_all_forecasts, _safe_run, hm, hy]
  have h2 : (generate_all_forecasts o' y).svr = .ok (List.replicate 30 p) := by
    have hm : _svr o' y = .ok (List.replicate 30 p) := by simp [_svr, hflat]
    simp [generate_all_forecasts, _safe_run, hm]
  exact ⟨h1.trans h2.symm, h1⟩

/-- Witness for C7's amended statement at the concrete scenario. -/
theorem ensemble_no_status_flag_witness :
    (generate_all_forecasts oracleAllFail [100]).svr
      = (generate_all_forecasts oracleSvrFlat [100]).svr := by
  exact (ensemble_no_status_flag oracleAllFail oracleSvrFlat [100] 100
    "svr raised" rfl rfl rfl).1

/-- C8: the forecast signal computed at lines 41-53 equals the spec's
formulation — the normalization over domain `(-10, 10)` of the percent
change between the last actual price `P0` and the sentiment-adjusted
median forecast price at the horizon end, where the adjustment is the
linear ramp `adj_t = P0*s*k*(t/H)` evaluated at `t = H` with `k = 0.1`
(hence equal to `P0*s*0.1`), applied to the median only. -/
theorem forecast_signal_matches_spec (prices : List ℚ)
    (simulations : List (List ℚ)) (s P0 : ℚ) (row : List ℚ) (median : ℚ)
    (hP : prices.getLast? = some P0)
    (hrow : simulations.getLast? = some row)
    (hmed : percentile50 row = some median)
    (_hP0 : P0 ≠ 0) :
    forecast_block prices simulations s = spec_forecastSignal P0 median s
    ∧ ramp_overlay P0 s 0.1 30 30 = P0 * s * 0.1 := by
  have hramp : ramp_overlay P0 s 0.1 30 30 = P0 * s * 0.1 := by
    unfold ramp_overlay
    norm_num
  constructor
  · simp only [forecast_block, hP, hrow, hmed, spec_forecastSignal, hramp]
  · exact hramp

/-- Witness for C8: one observed price 100, a final-day simulation row
`[95, 105]` (median 100), sentiment `1/2`. -/
theorem forecast_signal_matches_spec_witness :
    forecast_block [100] [[95, 105]] (1/2)
      = spec_forecastSignal 100 100 (1/2) := by
  exact (forecast_signal_matches_spec [100] [[95, 105]] (1/2) 100 [95, 105] 100
    rfl rfl (by norm_num [percentile50, sortQ, insertSorted]) (by norm_num)).1

/-- C9: evaluation at a failing input.  At a well-formed input whose
signals are all neutral, the code returns the error branch — the
`ValueError` from unpacking the 2-tuple — whereas the scoring core at
all-neutral signals yields the low-confidence Hold the claim
describes. -/
theorem worst_case_error_branch_eval :
    get_recommendation neutral_input
      = .err ("Error generating recommendation: "
          ++ "ValueError: values to unpack do not number 3")
    ∧ score_core (forecast_block neutral_input.prices neutral_input.simulations
          neutral_input.sentiment_score)
        (fundamental_score none none none none)
        (_normalize (some neutral_input.sentiment_score) (-1) 1)
      = { label := Label.hold, comp := 0, conf := 0 } := by
  constructor
  · rfl
  · have h1 : forecast_block neutral_input.prices neutral_input.simulations
        neutral_input.sentiment_score = 0 := by
      norm_num [neutral_input, forecast_block, percentile50, sortQ,
        insertSorted, _normalize]
    have h2 : fundamental_score none none none none = 0 := by
      norm_num [fundamental_score, f_score]
    have h3 : _normalize (some neutral_input.sentiment_score) (-1) 1 = 0 := by
      norm_num [neutral_input, _normalize]
    rw [h1, h2, h3]
    norm_num [score_core, composite, labelOf]

/-- C10: for every input, `get_recommendation` returns its error
branch and never a recommendation: `get_fundamentals` returns a
2-tuple on both its success and its error path, so the 3-way unpacking
at line 22 always raises `ValueError`, which the handler at lines
123-124 converts into the error-message return. -/
theorem get_recommendation_always_error_branch (inp : RecInput) :
    (get_fundamentals_tuple inp.fundOutcome).length = 2
    ∧ (∃ msg, get_recommendation inp = .err msg)
    ∧ ∀ card, get_recommendation inp ≠ .ok card := by
  obtain ⟨name, prices, sims, s, fo⟩ := inp
  cases fo <;>
    exact ⟨rfl, ⟨_, rfl⟩, fun card h => RecOutput.noConfusion h⟩

end FinQorp
